import Mathlib

/-!
Verification of the image-processing core of the bun-image-turbo repository
(src/rust/src/lib.rs) against its natural-language specification.

Modelling conventions:
* Rust `u32` / `usize` values are modelled as `Nat` (the source never relies on
  wrap-around for these quantities; casts `as u32` are modelled explicitly by
  `f64AsU32` with truncation and saturation).
* Rust `f64` / `f32` arithmetic is modelled as exact rational arithmetic (`ℚ`).
  All quantities involved are ratios of machine integers, and every concrete
  instance checked below is exactly representable, so the idealisation is
  faithful at those points.
* External collaborators (codecs, the saliency scorer, the hash packers, the
  EXIF writers) are parameters of the embedded operations: each operation is a
  function of the collaborator results, exactly as the source dispatches to
  them.
* The repository ships only `lib.rs`; the `types`, `error`, `decode`,
  `encode`, `metadata_write`, `resize` … modules are absent.  Definitions that
  stand in for those modules are marked `Modelled from the spec:` in their
  doc comment and follow the spec text (sections 3, 6 and 7 of spec.md).
-/

/-- Modelled from the spec: the error taxonomy of section 7 of spec.md
(`error.rs` is not in the sources).  `lib.rs` itself constructs
`ImageError::UnsupportedFormat` and `ImageError::ProcessingError`; the
remaining variants come from the spec taxonomy. -/
inductive ImageError where
  | DecodeError (msg : String)
  | UnsupportedFormat (msg : String)
  | InvalidOption (msg : String)
  | ProcessingError (msg : String)
  | TaskError (msg : String)
deriving DecidableEq, Repr

/-- The message carried by a tagged error. -/
def ImageError.msg : ImageError → String
  | .DecodeError m => m
  | .UnsupportedFormat m => m
  | .InvalidOption m => m
  | .ProcessingError m => m
  | .TaskError m => m

/-- Whether an error carries the `InvalidOption` classification. -/
def ImageError.isInvalidOption : ImageError → Bool
  | .InvalidOption _ => true
  | _ => false

/-- A host-runtime (napi) error: `Error::from_reason(msg)` keeps only the
reason string. -/
structure NapiError where
  reason : String
deriving DecidableEq, Repr

/-- Modelled from the spec: the conversion `ImageError -> napi::Error` lives in
the missing `error.rs`; per spec section 6 the blocking and non-blocking forms
have identical semantics, so the conversion is message-preserving. -/
def ImageError.toNapi (e : ImageError) : NapiError :=
  ⟨e.msg⟩

-- ==========================================================
-- String utilities (Rust `str::split`, `str::trim`, `u32::from_str`)
-- ==========================================================

/-- Accumulator pass for splitting a character list at every colon, mirroring
Rust `ratio.split(':')` in `parse_aspect_ratio` (lib.rs line 499). -/
def splitOnColonAux : List Char → List Char → List String
  | [], cur => [String.mk cur.reverse]
  | c :: rest, cur =>
    if c = ':' then String.mk cur.reverse :: splitOnColonAux rest []
    else splitOnColonAux rest (c :: cur)

/-- Rust `s.split(':').collect::<Vec<_>>()`. -/
def splitOnColon (s : String) : List String :=
  splitOnColonAux s.data []

/-- Rust `str::trim`: drop leading and trailing whitespace. -/
def trimAscii (s : String) : String :=
  String.mk (((s.data.dropWhile Char.isWhitespace).reverse.dropWhile Char.isWhitespace).reverse)

/-- Rust `str::parse::<u32>()`: an optional leading plus sign, then one or
more ASCII digits, rejecting anything else and values above `u32::MAX`. -/
def parseU32 (s : String) : Option Nat :=
  let cs := match s.data with
    | '+' :: rest => rest
    | l => l
  if cs.isEmpty then none
  else if cs.all (fun c => c.isDigit) then
    let v := cs.foldl (fun a c => a * 10 + (c.toNat - 48)) 0
    if v < 4294967296 then some v else none
  else none

-- ==========================================================
-- Numeric helpers for the f64/f32 computations
-- ==========================================================

/-- Rust `f64::round` / `f32::round`: round half away from zero. -/
def rustRound (q : ℚ) : ℤ :=
  if 0 ≤ q then ⌊q + 1 / 2⌋ else ⌈q - 1 / 2⌉

/-- Rust `as u32` on a float: truncation toward zero, saturating at the `u32`
range (for non-negative values truncation is the floor). -/
def f64AsU32 (q : ℚ) : ℕ :=
  min (Int.toNat ⌊q⌋) 4294967295

/-- Rust `x.round() as u32`. -/
def rustRoundAsU32 (q : ℚ) : ℕ :=
  min (Int.toNat (rustRound q)) 4294967295

-- ==========================================================
-- Shared data model
-- ==========================================================

/-- A decoded raster: width, height and the underlying pixel bytes.  The
channel layout is owned by the external codecs, so pixels are opaque bytes. -/
structure RawImage where
  width : ℕ
  height : ℕ
  pixels : List ℕ
deriving DecidableEq, Repr

/-- Modelled from the spec: the probe result `{width, height, format,
hasAlpha}` of spec section 3 (`types.rs` is not in the sources; `lib.rs`
reads the fields `width`, `height`, `has_alpha` and `format`). -/
structure ImageMetadata where
  width : ℕ
  height : ℕ
  format : String
  hasAlpha : Bool
deriving DecidableEq, Repr

-- ==========================================================
-- Aspect-ratio parsing and smart-crop target resolution
-- (lib.rs lines 498-511, 524-540, 619-632)
-- ==========================================================

/-- Error text of lib.rs line 501 (the quoted example is elided). -/
def aspectFormatErrMsg (s : String) : String :=
  "Invalid aspect ratio format: " ++ s

/-- Error text of lib.rs line 504. -/
def aspectWidthErrMsg (part : String) : String :=
  "Invalid width in aspect ratio: " ++ part

/-- Error text of lib.rs line 506. -/
def aspectHeightErrMsg (part : String) : String :=
  "Invalid height in aspect ratio: " ++ part

/-- Error text of lib.rs line 508. -/
def aspectZeroErrMsg : String :=
  "Aspect ratio values must be greater than 0"

/-- `parse_aspect_ratio` (lib.rs lines 498-511): split at colons, require
exactly two parts, trim and parse each as `u32`, reject zeroes. -/
def parseAspectRatioStr (s : String) : Except String (ℕ × ℕ) :=
  match splitOnColon s with
  | [p0, p1] =>
    match parseU32 (trimAscii p0) with
    | none => .error (aspectWidthErrMsg p0)
    | some w =>
      match parseU32 (trimAscii p1) with
      | none => .error (aspectHeightErrMsg p1)
      | some h =>
        if w = 0 ∨ h = 0 then .error aspectZeroErrMsg
        else .ok (w, h)
  | _ => .error (aspectFormatErrMsg s)

/-- Modelled from the spec: `SmartCropOptions` of spec section 3
(`types.rs` is not in the sources; `lib.rs` reads `width`, `height` and
`aspect_ratio`). -/
structure SmartCropOptions where
  width : Option ℕ
  height : Option ℕ
  aspectRatioStr : Option String
deriving DecidableEq, Repr

/-- Smart-crop target-window resolution (lib.rs lines 524-540, duplicated at
lines 572-585, 619-632 and 667-680): with an aspect ratio, scale it to the
largest window fitting the source and cast each side `as u32`; otherwise clamp
the explicit size to the source. -/
def resolveSmartCropTarget (imgW imgH : ℕ) (options : SmartCropOptions) :
    Except String (ℕ × ℕ) :=
  match options.aspectRatioStr with
  | some s =>
    match parseAspectRatioStr s with
    | .error e => .error e
    | .ok (rw, rh) =>
      let scaleW : ℚ := (imgW : ℚ) / (rw : ℚ)
      let scaleH : ℚ := (imgH : ℚ) / (rh : ℚ)
      let scale := min scaleW scaleH
      .ok (f64AsU32 ((rw : ℚ) * scale), f64AsU32 ((rh : ℚ) * scale))
  | none =>
    .ok (min (options.width.getD imgW) imgW, min (options.height.getD imgH) imgH)

/-- The crop rectangle and score returned by the external scorer
(spec section 3, `SmartCropAnalysis`). -/
structure SmartCropAnalysis where
  x : ℕ
  y : ℕ
  width : ℕ
  height : ℕ
  score : ℚ
deriving DecidableEq, Repr

/-- Error text of lib.rs lines 548 and 591. -/
def targetZeroWidthMsg : String :=
  "Target width must be > 0"

/-- Error text of lib.rs lines 549 and 592. -/
def targetZeroHeightMsg : String :=
  "Target height must be > 0"

/-- Error text of lib.rs lines 550 and 593 (the debug payload is the
collaborator error string). -/
def smartCropFailMsg (e : String) : String :=
  "Smart crop analysis failed: " ++ e

/-- `smart_crop_analyze` non-blocking body (lib.rs lines 567-602): decode,
resolve the target, reject zero target sides, convert to RGB and delegate to
the external scorer.  Rejections are tagged `ProcessingError`. -/
def smartCropAnalyzeAsyncCore (decode : Except ImageError RawImage)
    (toRgb8 : RawImage → RawImage)
    (finder : RawImage → ℕ → ℕ → Except String SmartCropAnalysis)
    (options : SmartCropOptions) : Except ImageError SmartCropAnalysis :=
  match decode with
  | .error e => .error e
  | .ok img =>
    match resolveSmartCropTarget img.width img.height options with
    | .error e => .error (.ProcessingError e)
    | .ok (targetW, targetH) =>
      if targetW = 0 then .error (.ProcessingError targetZeroWidthMsg)
      else if targetH = 0 then .error (.ProcessingError targetZeroHeightMsg)
      else
        match finder (toRgb8 img) targetW targetH with
        | .error e => .error (.ProcessingError (smartCropFailMsg e))
        | .ok result => .ok result

/-- `smart_crop_analyze_sync` (lib.rs lines 516-559): the same logic, with
rejections surfaced directly as `Error::from_reason` and collaborator errors
converted at the `?` boundary. -/
def smartCropAnalyzeSyncOp (decode : Except ImageError RawImage)
    (toRgb8 : RawImage → RawImage)
    (finder : RawImage → ℕ → ℕ → Except String SmartCropAnalysis)
    (options : SmartCropOptions) : Except NapiError SmartCropAnalysis :=
  match decode with
  | .error e => .error e.toNapi
  | .ok img =>
    match resolveSmartCropTarget img.width img.height options with
    | .error e => .error ⟨e⟩
    | .ok (targetW, targetH) =>
      if targetW = 0 then .error ⟨targetZeroWidthMsg⟩
      else if targetH = 0 then .error ⟨targetZeroHeightMsg⟩
      else
        match finder (toRgb8 img) targetW targetH with
        | .error e => .error ⟨smartCropFailMsg e⟩
        | .ok result => .ok result

-- ==========================================================
-- Thumbnail pipeline (lib.rs lines 956-1066)
-- ==========================================================

/-- Modelled from the spec: the thumbnail output-format choice of spec
section 4.3 step 6 (`types.rs` is not in the sources; `lib.rs` matches the
variants `Jpeg`, `Png`, `Webp`). -/
inductive ThumbnailFormat where
  | Jpeg
  | Png
  | Webp
deriving DecidableEq, Repr

/-- Modelled from the spec: resize filter selection (`types.rs` is not in the
sources; `lib.rs` names the variant `Nearest`, the rest follow the usual
filter set of the spec glossary). -/
inductive ResizeFilter where
  | Nearest
  | Triangle
  | CatmullRom
  | Gaussian
  | Lanczos3
deriving DecidableEq, Repr

/-- Modelled from the spec: fit-mode policy of spec section 3 (`types.rs` is
not in the sources; `lib.rs` names the variant `Fill`, the other policies are
configuration placeholders per spec section 9). -/
inductive FitMode where
  | Fill
  | Contain
  | Cover
deriving DecidableEq, Repr

/-- Modelled from the spec: `ResizeSpec` of spec section 3 (`types.rs` is not
in the sources).  The background payload is owned by the resize collaborator
and is opaque here. -/
structure ResizeOptions where
  width : Option ℕ
  height : Option ℕ
  filter : Option ResizeFilter
  fit : Option FitMode
  background : Option Unit
deriving DecidableEq, Repr

/-- Modelled from the spec: `ThumbnailRequest` of spec section 3 (`types.rs`
is not in the sources; `lib.rs` reads every field below). -/
structure ThumbnailOptions where
  width : ℕ
  height : Option ℕ
  format : Option ThumbnailFormat
  quality : Option ℕ
  fastMode : Option Bool
  shrinkOnLoad : Option Bool
  filter : Option ResizeFilter
deriving DecidableEq, Repr

/-- `ThumbnailResult` of lib.rs (fields per spec section 3). -/
structure ThumbnailResult where
  data : List ℕ
  width : ℕ
  height : ℕ
  format : String
  shrinkOnLoadUsed : Bool
  originalWidth : ℕ
  originalHeight : ℕ
deriving DecidableEq, Repr

/-- Target resolution of `generate_thumbnail_internal` (lib.rs lines
969-978): an explicit height is taken as-is; otherwise the height is derived
from the source aspect, rounded, and clamped to a minimum of 1. -/
def resolveThumbTarget (origW origH : ℕ) (w : ℕ) (hOpt : Option ℕ) : ℕ × ℕ :=
  match hOpt with
  | some h => (w, h)
  | none =>
    let r : ℚ := (w : ℚ) / (origW : ℚ)
    let h := rustRoundAsU32 ((origH : ℚ) * r)
    (w, max h 1)

/-- The skip-resize decision of `generate_thumbnail_internal` (lib.rs lines
995-1003): in fast mode both decoded/target ratios must lie within the 15%
tolerance window; otherwise the decoded dimensions must match exactly. -/
def skipResizeDecision (fastMode : Bool) (decodedW decodedH targetW targetH : ℕ) : Bool :=
  if fastMode then
    let wr : ℚ := (decodedW : ℚ) / (targetW : ℚ)
    let hr : ℚ := (decodedH : ℚ) / (targetH : ℚ)
    decide (85 / 100 ≤ wr) && decide (wr ≤ 115 / 100) &&
      decide (85 / 100 ≤ hr) && decide (hr ≤ 115 / 100)
  else
    decodedW == targetW && decodedH == targetH

/-- The collaborator surface consumed by the thumbnail pipeline: probe,
decoders, resizer and encoders, each given by its result on the current
input. -/
structure ThumbnailCollab where
  getMetadata : Except ImageError ImageMetadata
  decodeWithTargetFast : ℕ → ℕ → Bool → Except ImageError RawImage
  decodeImage : Except ImageError RawImage
  resizeImage : RawImage → ResizeOptions → Except ImageError RawImage
  encodeJpeg : RawImage → Option ℕ → Except ImageError (List ℕ)
  encodeWebp : RawImage → Option ℕ → Option Bool → Except ImageError (List ℕ)
  encodePng : RawImage → Except ImageError (List ℕ)

/-- `generate_thumbnail_internal` (lib.rs lines 956-1066): probe, resolve the
target, decode (shrunk or full), decide on the resize pass, resolve output
format and quality, and encode. -/
def generateThumbnailInternal (c : ThumbnailCollab) (options : ThumbnailOptions) :
    Except ImageError ThumbnailResult :=
  match c.getMetadata with
  | .error e => .error e
  | .ok meta =>
    let originalWidth := meta.width
    let originalHeight := meta.height
    let fastMode := options.fastMode.getD false
    let (targetWidth, targetHeight) :=
      resolveThumbTarget originalWidth originalHeight options.width options.height
    let useShrink := options.shrinkOnLoad.getD true
    let imgRes :=
      if useShrink then c.decodeWithTargetFast targetWidth targetHeight fastMode
      else c.decodeImage
    match imgRes with
    | .error e => .error e
    | .ok img =>
      let decodedW := img.width
      let decodedH := img.height
      let shrinkOnLoadUsed :=
        useShrink && (decide (decodedW < originalWidth) || decide (decodedH < originalHeight))
      let skipResize := skipResizeDecision fastMode decodedW decodedH targetWidth targetHeight
      let resizedRes : Except ImageError (RawImage × ℕ × ℕ) :=
        if skipResize then .ok (img, decodedW, decodedH)
        else
          let filter := if fastMode then some ResizeFilter.Nearest else options.filter
          let resizeOpts : ResizeOptions :=
            ⟨some targetWidth, some targetHeight, filter, some FitMode.Fill, none⟩
          match c.resizeImage img resizeOpts with
          | .error e => .error e
          | .ok resizedImg => .ok (resizedImg, resizedImg.width, resizedImg.height)
      match resizedRes with
      | .error e => .error e
      | .ok (resized, finalW, finalH) =>
        let outputFormat :=
          match options.format with
          | some .Jpeg => "jpeg"
          | some .Png => "png"
          | some .Webp => "webp"
          | none =>
            if meta.format = "jpeg" ∨ meta.format = "jpg" then "jpeg"
            else if meta.format = "webp" then "webp"
            else if meta.format = "png" then "png"
            else "jpeg"
        let defaultQuality : ℕ := if fastMode then 70 else 80
        let quality := options.quality.getD defaultQuality
        let dataRes :=
          if outputFormat = "jpeg" then c.encodeJpeg resized (some quality)
          else if outputFormat = "webp" then c.encodeWebp resized (some quality) (some false)
          else if outputFormat = "png" then c.encodePng resized
          else c.encodeJpeg resized (some quality)
        match dataRes with
        | .error e => .error e
        | .ok data =>
          .ok ⟨data, finalW, finalH, outputFormat, shrinkOnLoadUsed,
            originalWidth, originalHeight⟩

/-- `thumbnail_sync` (lib.rs line 1084): the internal pipeline with errors
converted at the napi boundary. -/
def thumbnailSyncOp (c : ThumbnailCollab) (options : ThumbnailOptions) :
    Except NapiError ThumbnailResult :=
  (generateThumbnailInternal c options).mapError ImageError.toNapi

/-- `thumbnail` non-blocking (lib.rs line 1104): the same internal pipeline
offloaded to a worker, then converted at the napi boundary. -/
def thumbnailAsyncOp (c : ThumbnailCollab) (options : ThumbnailOptions) :
    Except NapiError ThumbnailResult :=
  (generateThumbnailInternal c options).mapError ImageError.toNapi

-- ==========================================================
-- Thumbhash (lib.rs lines 111-143 sync, 351-388 non-blocking)
-- ==========================================================

/-- `ThumbHashResult` of lib.rs: hash bytes plus the original probed
dimensions and alpha flag. -/
structure ThumbHashResult where
  hash : List ℕ
  width : ℕ
  height : ℕ
  hasAlpha : Bool
deriving DecidableEq, Repr

/-- The thumbhash target-size computation (lib.rs lines 119-127): when either
original side exceeds 100, scale so the larger side is 100, round each side
and clamp to a minimum of 1; otherwise keep the original dimensions. -/
def thumbTarget (origW origH : ℕ) : ℕ × ℕ :=
  if 100 < origW ∨ 100 < origH then
    let scale : ℚ := 100 / ((max origW origH : ℕ) : ℚ)
    (max (rustRoundAsU32 ((origW : ℚ) * scale)) 1,
     max (rustRoundAsU32 ((origH : ℚ) * scale)) 1)
  else (origW, origH)

/-- The spec formulation of the thumbhash target (spec section 4.5, thumbhash
item (b)): `round(dim * 100 / max(origW, origH))` per dimension, clamped to a
minimum of 1, when either dimension exceeds 100. -/
def thumbTargetSpec (origW origH : ℕ) : ℕ × ℕ :=
  if 100 < origW ∨ 100 < origH then
    (max (rustRoundAsU32 (((origW : ℚ) * 100) / ((max origW origH : ℕ) : ℚ))) 1,
     max (rustRoundAsU32 (((origH : ℚ) * 100) / ((max origW origH : ℕ) : ℚ))) 1)
  else (origW, origH)

/-- `thumbhash_sync` (lib.rs lines 111-143): probe the original metadata,
decode at the reduced target, convert to RGBA and delegate to the external
packer with the actually decoded dimensions; report the original probed
dimensions and alpha flag. -/
def thumbhashSyncCore (getMetadata : Except ImageError ImageMetadata)
    (decodeWithTarget : ℕ → ℕ → Except ImageError RawImage)
    (toRgba8 : RawImage → List ℕ)
    (rgbaToThumbHash : ℕ → ℕ → List ℕ → List ℕ) : Except ImageError ThumbHashResult :=
  match getMetadata with
  | .error e => .error e
  | .ok meta =>
    let thumbDims := thumbTarget meta.width meta.height
    match decodeWithTarget thumbDims.1 thumbDims.2 with
    | .error e => .error e
    | .ok img =>
      .ok ⟨rgbaToThumbHash img.width img.height (toRgba8 img),
        meta.width, meta.height, meta.hasAlpha⟩

/-- `thumbhash` non-blocking body (lib.rs lines 351-388): a verbatim
duplicate of the blocking logic. -/
def thumbhashAsyncCore (getMetadata : Except ImageError ImageMetadata)
    (decodeWithTarget : ℕ → ℕ → Except ImageError RawImage)
    (toRgba8 : RawImage → List ℕ)
    (rgbaToThumbHash : ℕ → ℕ → List ℕ → List ℕ) : Except ImageError ThumbHashResult :=
  match getMetadata with
  | .error e => .error e
  | .ok meta =>
    let thumbDims := thumbTarget meta.width meta.height
    match decodeWithTarget thumbDims.1 thumbDims.2 with
    | .error e => .error e
    | .ok img =>
      .ok ⟨rgbaToThumbHash img.width img.height (toRgba8 img),
        meta.width, meta.height, meta.hasAlpha⟩

-- ==========================================================
-- EXIF write/strip dispatch (lib.rs lines 884-950)
-- ==========================================================

/-- The format tag returned by `decode::detect_format` (the `image` crate
format enumeration restricted to the variants the dispatch distinguishes). -/
inductive ImageFormat where
  | Jpeg
  | Png
  | WebP
  | Gif
  | Bmp
  | Tiff
  | Ico
  | Avif
deriving DecidableEq, Repr

/-- Error text of lib.rs lines 893 and 909. -/
def exifWriteUnsupportedMsg : String :=
  "EXIF writing only supported for JPEG and WebP formats"

/-- Error text of lib.rs lines 927 and 942. -/
def exifStripUnsupportedMsg : String :=
  "EXIF stripping only supported for JPEG and WebP formats"

/-- `write_exif` non-blocking body (lib.rs lines 901-917): dispatch on the
detected format, rejecting everything but JPEG and WebP with
`UnsupportedFormat`. -/
def writeExifCore (detect : Except ImageError ImageFormat)
    (writeJpeg writeWebp : Except ImageError (List ℕ)) : Except ImageError (List ℕ) :=
  match detect with
  | .error e => .error e
  | .ok fmt =>
    match fmt with
    | .Jpeg => writeJpeg
    | .WebP => writeWebp
    | _ => .error (.UnsupportedFormat exifWriteUnsupportedMsg)

/-- `write_exif_sync` (lib.rs lines 886-897): the same dispatch with the
rejection surfaced directly as `Error::from_reason`. -/
def writeExifSyncOp (detect : Except ImageError ImageFormat)
    (writeJpeg writeWebp : Except ImageError (List ℕ)) : Except NapiError (List ℕ) :=
  match detect with
  | .error e => .error e.toNapi
  | .ok fmt =>
    match fmt with
    | .Jpeg => writeJpeg.mapError ImageError.toNapi
    | .WebP => writeWebp.mapError ImageError.toNapi
    | _ => .error ⟨exifWriteUnsupportedMsg⟩

/-- `strip_exif` non-blocking body (lib.rs lines 935-950). -/
def stripExifCore (detect : Except ImageError ImageFormat)
    (stripJpeg stripWebp : Except ImageError (List ℕ)) : Except ImageError (List ℕ) :=
  match detect with
  | .error e => .error e
  | .ok fmt =>
    match fmt with
    | .Jpeg => stripJpeg
    | .WebP => stripWebp
    | _ => .error (.UnsupportedFormat exifStripUnsupportedMsg)

/-- `strip_exif_sync` (lib.rs lines 921-931). -/
def stripExifSyncOp (detect : Except ImageError ImageFormat)
    (stripJpeg stripWebp : Except ImageError (List ℕ)) : Except NapiError (List ℕ) :=
  match detect with
  | .error e => .error e.toNapi
  | .ok fmt =>
    match fmt with
    | .Jpeg => stripJpeg.mapError ImageError.toNapi
    | .WebP => stripWebp.mapError ImageError.toNapi
    | _ => .error ⟨exifStripUnsupportedMsg⟩

-- ==========================================================
-- Perceptual hash distance (lib.rs lines 203-212 sync, 471-485 non-blocking)
-- ==========================================================

/-- Error text of lib.rs lines 207 and 476 (the debug payload is the
collaborator error string). -/
def invalidHash1Msg (e : String) : String :=
  "Invalid hash1: " ++ e

/-- Error text of lib.rs lines 209 and 478. -/
def invalidHash2Msg (e : String) : String :=
  "Invalid hash2: " ++ e

/-- `image_hash_distance` non-blocking body (lib.rs lines 472-481): decode
both base64 hashes, tagging a malformed one `ProcessingError`, then return
the external Hamming distance. -/
def imageHashDistanceCore (H : Type) (fromBase64 : String → Except String H)
    (dist : H → H → ℕ) (hash1 hash2 : String) : Except ImageError ℕ :=
  match fromBase64 hash1 with
  | .error e => .error (.ProcessingError (invalidHash1Msg e))
  | .ok h1 =>
    match fromBase64 hash2 with
    | .error e => .error (.ProcessingError (invalidHash2Msg e))
    | .ok h2 => .ok (dist h1 h2)

/-- `image_hash_distance_sync` (lib.rs lines 203-212): the same logic with
rejections surfaced directly as `Error::from_reason`. -/
def imageHashDistanceSyncOp (H : Type) (fromBase64 : String → Except String H)
    (dist : H → H → ℕ) (hash1 hash2 : String) : Except NapiError ℕ :=
  match fromBase64 hash1 with
  | .error e => .error ⟨invalidHash1Msg e⟩
  | .ok h1 =>
    match fromBase64 hash2 with
    | .error e => .error ⟨invalidHash2Msg e⟩
    | .ok h2 => .ok (dist h1 h2)

-- ==========================================================
-- Dominant colors (lib.rs lines 712-765 sync, 771-823 non-blocking)
-- ==========================================================

/-- One extracted color with its hex rendering. -/
structure DominantColor where
  r : ℕ
  g : ℕ
  b : ℕ
  hex : String
deriving DecidableEq, Repr

/-- An uppercase hexadecimal digit. -/
def hexDigitChar (n : ℕ) : Char :=
  (['0', '1', '2', '3', '4', '5', '6', '7', '8', '9', 'A', 'B', 'C', 'D', 'E', 'F']).getD n '0'

/-- Rust format specifier `{:02X}` on a `u8`: two uppercase hex digits,
zero-padded (byte values are below 256, so the width is exactly two). -/
def toHex2 (n : ℕ) : String :=
  String.mk [hexDigitChar (n / 16 % 16), hexDigitChar (n % 16)]

/-- `rgb_to_hex` (lib.rs lines 712-714). -/
def rgb_to_hex (r g b : ℕ) : String :=
  "#" ++ toHex2 r ++ toHex2 g ++ toHex2 b

/-- The black fallback color of lib.rs lines 754-761. -/
def blackColor : DominantColor :=
  ⟨0, 0, 0, "#000000"⟩

/-- `DominantColorsResult` of lib.rs. -/
structure DominantColorsResult where
  colors : List DominantColor
  primary : DominantColor
deriving DecidableEq, Repr

/-- The color-collection loop of lib.rs lines 736-751: walk the extracted
bytes three at a time, stopping once `maxColors` colors are collected and
skipping a trailing partial triple. -/
def colorsLoop (maxColors : ℕ) : List ℕ → List DominantColor → List DominantColor
  | r :: g :: b :: rest, acc =>
    if maxColors ≤ acc.length then acc
    else colorsLoop maxColors rest (acc ++ [⟨r, g, b, rgb_to_hex r g b⟩])
  | _, acc => acc

/-- `dominant_colors` non-blocking body (lib.rs lines 775-818): decode,
convert to RGB, extract color bytes via the external collaborator, collect at
most `count ?? 5` colors, fall back to black when none were produced, and
report the first color as primary. -/
def dominantColorsAsyncCore (decode : Except ImageError RawImage)
    (toRgb8 : RawImage → List ℕ) (getColors : List ℕ → List ℕ)
    (count : Option ℕ) : Except ImageError DominantColorsResult :=
  match decode with
  | .error e => .error e
  | .ok img =>
    let colorBytes := getColors (toRgb8 img)
    let maxColors := count.getD 5
    let collected := colorsLoop maxColors colorBytes []
    let colors := if collected.isEmpty then [blackColor] else collected
    .ok ⟨colors, colors.headD blackColor⟩

/-- `dominant_colors_sync` (lib.rs lines 719-765): a verbatim duplicate of
the non-blocking logic, with collaborator errors converted at the `?`
boundary. -/
def dominantColorsSyncOp (decode : Except ImageError RawImage)
    (toRgb8 : RawImage → List ℕ) (getColors : List ℕ → List ℕ)
    (count : Option ℕ) : Except NapiError DominantColorsResult :=
  match decode with
  | .error e => .error e.toNapi
  | .ok img =>
    let colorBytes := getColors (toRgb8 img)
    let maxColors := count.getD 5
    let collected := colorsLoop maxColors colorBytes []
    let colors := if collected.isEmpty then [blackColor] else collected
    .ok ⟨colors, colors.headD blackColor⟩

-- ==========================================================
-- Remaining public-surface operations (for the sync/async contract)
-- ==========================================================

/-- Modelled from the spec: JPEG encode options (spec section 6: quality;
`types.rs` is not in the sources, `lib.rs` line 1051 constructs the
`quality` field). -/
structure JpegOptions where
  quality : Option ℕ
deriving DecidableEq, Repr

/-- Modelled from the spec: PNG encode options (spec section 6 lists a
quality knob; `types.rs` is not in the sources and `lib.rs` only passes the
struct through). -/
structure PngOptions where
  quality : Option ℕ
deriving DecidableEq, Repr

/-- Modelled from the spec: WebP encode options (spec section 6: quality and
lossless; `lib.rs` line 1052 constructs both fields). -/
structure WebPOptions where
  quality : Option ℕ
  lossless : Option Bool
deriving DecidableEq, Repr

/-- Modelled from the spec: the crop rectangle of spec section 6
(`types.rs` is not in the sources). -/
structure CropOptions where
  x : ℕ
  y : ℕ
  width : ℕ
  height : ℕ
deriving DecidableEq, Repr

/-- `metadata` non-blocking body (lib.rs lines 233-240): the probe result,
verbatim. -/
def metadataAsyncCore (getMetadata : Except ImageError ImageMetadata) :
    Except ImageError ImageMetadata :=
  getMetadata

/-- `metadata_sync` (lib.rs lines 31-33): the probe result converted at the
napi boundary. -/
def metadataSyncOp (getMetadata : Except ImageError ImageMetadata) :
    Except NapiError ImageMetadata :=
  getMetadata.mapError ImageError.toNapi

/-- `resize` non-blocking body (lib.rs lines 244-255): decode with the
requested target, resize, encode to PNG. -/
def resizeAsyncCore (decodeWithTargetOpt : Option ℕ → Option ℕ → Except ImageError RawImage)
    (resizeImage : RawImage → ResizeOptions → Except ImageError RawImage)
    (encodePng : RawImage → Except ImageError (List ℕ))
    (options : ResizeOptions) : Except ImageError (List ℕ) :=
  match decodeWithTargetOpt options.width options.height with
  | .error e => .error e
  | .ok img =>
    match resizeImage img options with
    | .error e => .error e
    | .ok resized =>
      match encodePng resized with
      | .error e => .error e
      | .ok out => .ok out

/-- `resize_sync` (lib.rs lines 37-45): the same pipeline with collaborator
errors converted at each `?` boundary. -/
def resizeSyncOp (decodeWithTargetOpt : Option ℕ → Option ℕ → Except ImageError RawImage)
    (resizeImage : RawImage → ResizeOptions → Except ImageError RawImage)
    (encodePng : RawImage → Except ImageError (List ℕ))
    (options : ResizeOptions) : Except NapiError (List ℕ) :=
  match decodeWithTargetOpt options.width options.height with
  | .error e => .error e.toNapi
  | .ok img =>
    match resizeImage img options with
    | .error e => .error e.toNapi
    | .ok resized =>
      match encodePng resized with
      | .error e => .error e.toNapi
      | .ok out => .ok out

/-- `crop` non-blocking body (lib.rs lines 259-269): decode, crop, encode to
PNG. -/
def cropAsyncCore (decodeImage : Except ImageError RawImage)
    (cropImage : RawImage → CropOptions → Except ImageError RawImage)
    (encodePng : RawImage → Except ImageError (List ℕ))
    (options : CropOptions) : Except ImageError (List ℕ) :=
  match decodeImage with
  | .error e => .error e
  | .ok img =>
    match cropImage img options with
    | .error e => .error e
    | .ok cropped =>
      match encodePng cropped with
      | .error e => .error e
      | .ok out => .ok out

/-- `crop_sync` (lib.rs lines 49-54). -/
def cropSyncOp (decodeImage : Except ImageError RawImage)
    (cropImage : RawImage → CropOptions → Except ImageError RawImage)
    (encodePng : RawImage → Except ImageError (List ℕ))
    (options : CropOptions) : Except NapiError (List ℕ) :=
  match decodeImage with
  | .error e => .error e.toNapi
  | .ok img =>
    match cropImage img options with
    | .error e => .error e.toNapi
    | .ok cropped =>
      match encodePng cropped with
      | .error e => .error e.toNapi
      | .ok out => .ok out

/-- `to_jpeg` non-blocking body (lib.rs lines 273-282): decode then encode
with the caller options. -/
def toJpegAsyncCore (decodeImage : Except ImageError RawImage)
    (encodeJpegOpts : RawImage → Option JpegOptions → Except ImageError (List ℕ))
    (options : Option JpegOptions) : Except ImageError (List ℕ) :=
  match decodeImage with
  | .error e => .error e
  | .ok img =>
    match encodeJpegOpts img options with
    | .error e => .error e
    | .ok out => .ok out

/-- `to_jpeg_sync` (lib.rs lines 58-62). -/
def toJpegSyncOp (decodeImage : Except ImageError RawImage)
    (encodeJpegOpts : RawImage → Option JpegOptions → Except ImageError (List ℕ))
    (options : Option JpegOptions) : Except NapiError (List ℕ) :=
  match decodeImage with
  | .error e => .error e.toNapi
  | .ok img =>
    match encodeJpegOpts img options with
    | .error e => .error e.toNapi
    | .ok out => .ok out

/-- `to_png` non-blocking body (lib.rs lines 286-295). -/
def toPngAsyncCore (decodeImage : Except ImageError RawImage)
    (encodePngOpts : RawImage → Option PngOptions → Except ImageError (List ℕ))
    (options : Option PngOptions) : Except ImageError (List ℕ) :=
  match decodeImage with
  | .error e => .error e
  | .ok img =>
    match encodePngOpts img options with
    | .error e => .error e
    | .ok out => .ok out

/-- `to_png_sync` (lib.rs lines 66-70). -/
def toPngSyncOp (decodeImage : Except ImageError RawImage)
    (encodePngOpts : RawImage → Option PngOptions → Except ImageError (List ℕ))
    (options : Option PngOptions) : Except NapiError (List ℕ) :=
  match decodeImage with
  | .error e => .error e.toNapi
  | .ok img =>
    match encodePngOpts img options with
    | .error e => .error e.toNapi
    | .ok out => .ok out

/-- `to_webp` non-blocking body (lib.rs lines 299-308). -/
def toWebpAsyncCore (decodeImage : Except ImageError RawImage)
    (encodeWebpOpts : RawImage → Option WebPOptions → Except ImageError (List ℕ))
    (options : Option WebPOptions) : Except ImageError (List ℕ) :=
  match decodeImage with
  | .error e => .error e
  | .ok img =>
    match encodeWebpOpts img options with
    | .error e => .error e
    | .ok out => .ok out

/-- `to_webp_sync` (lib.rs lines 74-78). -/
def toWebpSyncOp (decodeImage : Except ImageError RawImage)
    (encodeWebpOpts : RawImage → Option WebPOptions → Except ImageError (List ℕ))
    (options : Option WebPOptions) : Except NapiError (List ℕ) :=
  match decodeImage with
  | .error e => .error e.toNapi
  | .ok img =>
    match encodeWebpOpts img options with
    | .error e => .error e.toNapi
    | .ok out => .ok out

/-- The public perceptual-hash algorithm selector of lib.rs. -/
inductive HashAlgorithm where
  | PHash
  | DHash
  | AHash
  | BlockHash
deriving DecidableEq, Repr

/-- The public hash-size selector of lib.rs. -/
inductive HashSize where
  | Size8
  | Size16
  | Size32
deriving DecidableEq, Repr

/-- The external hasher kinds of the `image_hasher` collaborator. -/
inductive HashAlg where
  | Gradient
  | DoubleGradient
  | Mean
  | Blockhash
deriving DecidableEq, Repr

/-- `ImageHashResult` of lib.rs. -/
structure ImageHashResult where
  hash : String
  width : ℕ
  height : ℕ
  hashSize : ℕ
  algorithm : String
deriving DecidableEq, Repr

/-- `image_hash_sync` (lib.rs lines 152-197): decode, default the size to 8
and the algorithm to PHash, map the algorithm to the external hasher kind
and report the base64 hash together with the image dimensions and the chosen
parameters. -/
def imageHashSyncCore (decodeImage : Except ImageError RawImage)
    (hashImage : HashAlg → ℕ → RawImage → String)
    (algorithm : Option HashAlgorithm) (size : Option HashSize) :
    Except ImageError ImageHashResult :=
  match decodeImage with
  | .error e => .error e
  | .ok img =>
    let hashSize : ℕ :=
      match size.getD HashSize.Size8 with
      | .Size8 => 8
      | .Size16 => 16
      | .Size32 => 32
    let algEnum := algorithm.getD HashAlgorithm.PHash
    let alg : HashAlg :=
      match algEnum with
      | .PHash => .Gradient
      | .DHash => .DoubleGradient
      | .AHash => .Mean
      | .BlockHash => .Blockhash
    let algName : String :=
      match algEnum with
      | .PHash => "PHash"
      | .DHash => "DHash"
      | .AHash => "AHash"
      | .BlockHash => "BlockHash"
    .ok ⟨hashImage alg hashSize img, img.width, img.height, hashSize, algName⟩

/-- `image_hash` non-blocking body (lib.rs lines 415-465): a verbatim
duplicate of the blocking logic. -/
def imageHashAsyncCore (decodeImage : Except ImageError RawImage)
    (hashImage : HashAlg → ℕ → RawImage → String)
    (algorithm : Option HashAlgorithm) (size : Option HashSize) :
    Except ImageError ImageHashResult :=
  match decodeImage with
  | .error e => .error e
  | .ok img =>
    let hashSize : ℕ :=
      match size.getD HashSize.Size8 with
      | .Size8 => 8
      | .Size16 => 16
      | .Size32 => 32
    let algEnum := algorithm.getD HashAlgorithm.PHash
    let alg : HashAlg :=
      match algEnum with
      | .PHash => .Gradient
      | .DHash => .DoubleGradient
      | .AHash => .Mean
      | .BlockHash => .Blockhash
    let algName : String :=
      match algEnum with
      | .PHash => "PHash"
      | .DHash => "DHash"
      | .AHash => "AHash"
      | .BlockHash => "BlockHash"
    .ok ⟨hashImage alg hashSize img, img.width, img.height, hashSize, algName⟩

/-- `smart_crop` non-blocking body (lib.rs lines 662-705): the analyze logic
followed by extracting the returned rectangle from the original raster and
encoding to PNG. -/
def smartCropAsyncCore (decode : Except ImageError RawImage)
    (toRgb8 : RawImage → RawImage)
    (finder : RawImage → ℕ → ℕ → Except String SmartCropAnalysis)
    (cropImm : RawImage → ℕ → ℕ → ℕ → ℕ → RawImage)
    (encodePng : RawImage → Except ImageError (List ℕ))
    (options : SmartCropOptions) : Except ImageError (List ℕ) :=
  match decode with
  | .error e => .error e
  | .ok img =>
    match resolveSmartCropTarget img.width img.height options with
    | .error e => .error (.ProcessingError e)
    | .ok (targetW, targetH) =>
      if targetW = 0 then .error (.ProcessingError targetZeroWidthMsg)
      else if targetH = 0 then .error (.ProcessingError targetZeroHeightMsg)
      else
        match finder (toRgb8 img) targetW targetH with
        | .error e => .error (.ProcessingError (smartCropFailMsg e))
        | .ok result =>
          match encodePng (cropImm img result.x result.y result.width result.height) with
          | .error e => .error e
          | .ok out => .ok out

/-- `smart_crop_sync` (lib.rs lines 611-653): the same logic with rejections
surfaced directly as `Error::from_reason`. -/
def smartCropSyncOp (decode : Except ImageError RawImage)
    (toRgb8 : RawImage → RawImage)
    (finder : RawImage → ℕ → ℕ → Except String SmartCropAnalysis)
    (cropImm : RawImage → ℕ → ℕ → ℕ → ℕ → RawImage)
    (encodePng : RawImage → Except ImageError (List ℕ))
    (options : SmartCropOptions) : Except NapiError (List ℕ) :=
  match decode with
  | .error e => .error e.toNapi
  | .ok img =>
    match resolveSmartCropTarget img.width img.height options with
    | .error e => .error ⟨e⟩
    | .ok (targetW, targetH) =>
      if targetW = 0 then .error ⟨targetZeroWidthMsg⟩
      else if targetH = 0 then .error ⟨targetZeroHeightMsg⟩
      else
        match finder (toRgb8 img) targetW targetH with
        | .error e => .error ⟨smartCropFailMsg e⟩
        | .ok result =>
          match encodePng (cropImm img result.x result.y result.width result.height) with
          | .error e => .error e.toNapi
          | .ok out => .ok out

/-- Error text of lib.rs lines 97 and 333 (the payload is the collaborator
error string). -/
def blurhashErrMsg (e : String) : String :=
  "Blurhash error: " ++ e

/-- `BlurHashResult` of lib.rs. -/
structure BlurHashResult where
  hash : String
  width : ℕ
  height : ℕ
deriving DecidableEq, Repr

/-- `blurhash` non-blocking body (lib.rs lines 324-344): decode, default the
component counts to 4 and 3, convert to RGBA and delegate, reporting the
RGBA raster dimensions. -/
def blurhashAsyncCore (decodeImage : Except ImageError RawImage)
    (toRgba8Image : RawImage → RawImage)
    (encode : ℕ → ℕ → ℕ → ℕ → List ℕ → Except String String)
    (componentsX componentsY : Option ℕ) : Except ImageError BlurHashResult :=
  match decodeImage with
  | .error e => .error e
  | .ok img =>
    let cx := componentsX.getD 4
    let cy := componentsY.getD 3
    let rgba := toRgba8Image img
    match encode cx cy rgba.width rgba.height rgba.pixels with
    | .error e => .error (.ProcessingError (blurhashErrMsg e))
    | .ok hash => .ok ⟨hash, rgba.width, rgba.height⟩

/-- `blurhash_sync` (lib.rs lines 88-104): the same logic with the encoder
failure surfaced directly as `Error::from_reason`. -/
def blurhashSyncOp (decodeImage : Except ImageError RawImage)
    (toRgba8Image : RawImage → RawImage)
    (encode : ℕ → ℕ → ℕ → ℕ → List ℕ → Except String String)
    (componentsX componentsY : Option ℕ) : Except NapiError BlurHashResult :=
  match decodeImage with
  | .error e => .error e.toNapi
  | .ok img =>
    let cx := componentsX.getD 4
    let cy := componentsY.getD 3
    let rgba := toRgba8Image img
    match encode cx cy rgba.width rgba.height rgba.pixels with
    | .error e => .error ⟨blurhashErrMsg e⟩
    | .ok hash => .ok ⟨hash, rgba.width, rgba.height⟩

/-- Error text of lib.rs lines 218 and 395. -/
def invalidThumbhashMsg : String :=
  "Invalid thumbhash data"

/-- `ThumbHashDecodeResult` of lib.rs. -/
structure ThumbHashDecodeResult where
  rgba : List ℕ
  width : ℕ
  height : ℕ
deriving DecidableEq, Repr

/-- `thumbhash_to_rgba` non-blocking body (lib.rs lines 393-402): pure
delegation to the external unpacker, dropping its error payload. -/
def thumbhashToRgbaAsyncCore (unpack : Except Unit (ℕ × ℕ × List ℕ)) :
    Except ImageError ThumbHashDecodeResult :=
  match unpack with
  | .error _ => .error (.ProcessingError invalidThumbhashMsg)
  | .ok (w, h, rgba) => .ok ⟨rgba, w, h⟩

/-- `thumbhash_to_rgba_sync` (lib.rs lines 216-225). -/
def thumbhashToRgbaSyncOp (unpack : Except Unit (ℕ × ℕ × List ℕ)) :
    Except NapiError ThumbHashDecodeResult :=
  match unpack with
  | .error _ => .error ⟨invalidThumbhashMsg⟩
  | .ok (w, h, rgba) => .ok ⟨rgba, w, h⟩

/-- Modelled from the spec: tensor-conversion options of spec section 4.7
(`types.rs` is not in the sources; all fields independently optional, their
payloads owned by the external converter). -/
structure TensorOptions where
  dtype : Option String
  layout : Option String
  normalization : Option String
  width : Option ℕ
  height : Option ℕ
  batch : Option ℕ
deriving DecidableEq, Repr

/-- The all-None default constructed at lib.rs lines 833-840 and 849-856. -/
def defaultTensorOptions : TensorOptions :=
  ⟨none, none, none, none, none, none⟩

/-- `to_tensor` non-blocking body (lib.rs lines 847-862): default the
options and delegate to the external converter. -/
def toTensorAsyncCore (T : Type) (imageToTensor : TensorOptions → Except ImageError T)
    (options : Option TensorOptions) : Except ImageError T :=
  imageToTensor (options.getD defaultTensorOptions)

/-- `to_tensor_sync` (lib.rs lines 832-842). -/
def toTensorSyncOp (T : Type) (imageToTensor : TensorOptions → Except ImageError T)
    (options : Option TensorOptions) : Except NapiError T :=
  (imageToTensor (options.getD defaultTensorOptions)).mapError ImageError.toNapi

/-- `thumbnail_buffer_sync` (lib.rs lines 1116-1119): the internal pipeline,
keeping only the encoded bytes. -/
def thumbnailBufferSyncOp (c : ThumbnailCollab) (options : ThumbnailOptions) :
    Except NapiError (List ℕ) :=
  match generateThumbnailInternal c options with
  | .error e => .error e.toNapi
  | .ok r => .ok r.data

/-- `thumbnail_buffer` non-blocking (lib.rs lines 1124-1132): the same
pipeline mapped to its data field on the worker, then converted at the napi
boundary. -/
def thumbnailBufferAsyncOp (c : ThumbnailCollab) (options : ThumbnailOptions) :
    Except NapiError (List ℕ) :=
  ((generateThumbnailInternal c options).map (fun r => r.data)).mapError ImageError.toNapi

-- ==========================================================
-- Helper lemmas
-- ==========================================================

/-- Floor evaluation helper for concrete rationals. -/
theorem floor_rat_eq (q : ℚ) (z : ℤ) (h1 : (z : ℚ) ≤ q) (h2 : q < z + 1) : ⌊q⌋ = z :=
  Int.floor_eq_iff.mpr ⟨h1, h2⟩

/-- A parsed aspect ratio has positive components. -/
theorem parseAspectRatioStr_pos (s : String) (a b : ℕ)
    (h : parseAspectRatioStr s = .ok (a, b)) : 0 < a ∧ 0 < b := by
  unfold parseAspectRatioStr at h
  split at h
  · rename_i p0 p1
    split at h
    · exact absurd h (by simp)
    · rename_i w hw
      split at h
      · exact absurd h (by simp)
      · rename_i v hv
        split at h
        · exact absurd h (by simp)
        · rename_i hzero
          simp only [Except.ok.injEq, Prod.mk.injEq] at h
          omega
  · exact absurd h (by simp)

/-- `f64AsU32` is bounded by any natural bound on its argument. -/
theorem f64AsU32_le_nat (q : ℚ) (n : ℕ) (h : q ≤ (n : ℚ)) : f64AsU32 q ≤ n := by
  unfold f64AsU32
  have h2 : ⌊q⌋ ≤ (n : ℤ) := by
    have := Int.floor_mono h
    simpa using this
  exact le_trans (min_le_left _ _) (Int.toNat_le.mpr h2)

/-- Evaluation of the smart-crop window for a 1000 by 1000 source and the
ratio 16:9: the scale is 62.5, the width side casts to 1000 and the height
side truncates 562.5 down to 562. -/
theorem resolveTarget_1000_sq_16_9 :
    resolveSmartCropTarget 1000 1000 ⟨none, none, some "16:9"⟩ = .ok (1000, 562) := by
  have h1 : resolveSmartCropTarget 1000 1000 ⟨none, none, some "16:9"⟩ =
      .ok (f64AsU32 (((16 : ℕ) : ℚ) *
             min (((1000 : ℕ) : ℚ) / ((16 : ℕ) : ℚ)) (((1000 : ℕ) : ℚ) / ((9 : ℕ) : ℚ))),
           f64AsU32 (((9 : ℕ) : ℚ) *
             min (((1000 : ℕ) : ℚ) / ((16 : ℕ) : ℚ)) (((1000 : ℕ) : ℚ) / ((9 : ℕ) : ℚ)))) := rfl
  have hmin : min (((1000 : ℕ) : ℚ) / ((16 : ℕ) : ℚ)) (((1000 : ℕ) : ℚ) / ((9 : ℕ) : ℚ)) =
      125 / 2 := by
    rw [min_eq_left] <;> push_cast <;> norm_num
  have hw : f64AsU32 (((16 : ℕ) : ℚ) * (125 / 2)) = 1000 := by
    have hv : (((16 : ℕ) : ℚ) * (125 / 2)) = 1000 := by push_cast; norm_num
    rw [f64AsU32, hv, floor_rat_eq 1000 1000 (by norm_num) (by norm_num)]
    rfl
  have hh : f64AsU32 (((9 : ℕ) : ℚ) * (125 / 2)) = 562 := by
    have hv : (((9 : ℕ) : ℚ) * (125 / 2)) = 1125 / 2 := by push_cast; norm_num
    rw [f64AsU32, hv, floor_rat_eq (1125 / 2) 562 (by norm_num) (by norm_num)]
    rfl
  rw [h1, hmin, hw, hh]

-- ==========================================================
-- Claims
-- ==========================================================

/-- C1 counterexample: on a 1000 by 1000 source with aspect ratio 16:9 the
code resolves the window to (1000, 562) by `as u32` truncation, while the
claimed formula round(H * scale) gives 563 for the height (562.5 rounds up):
the claim as stated is false. -/
theorem smart_crop_target_round_counterexample :
    resolveSmartCropTarget 1000 1000 ⟨none, none, some "16:9"⟩ = .ok (1000, 562) ∧
    rustRoundAsU32 (((9 : ℕ) : ℚ) *
      min (((1000 : ℕ) : ℚ) / ((16 : ℕ) : ℚ)) (((1000 : ℕ) : ℚ) / ((9 : ℕ) : ℚ))) = 563 ∧
    (562 : ℕ) ≠ 563 := by
  refine ⟨resolveTarget_1000_sq_16_9, ?_, by norm_num⟩
  have hmin : min (((1000 : ℕ) : ℚ) / ((16 : ℕ) : ℚ)) (((1000 : ℕ) : ℚ) / ((9 : ℕ) : ℚ)) =
      125 / 2 := by
    rw [min_eq_left] <;> push_cast <;> norm_num
  have hv : (((9 : ℕ) : ℚ) * (125 / 2)) = 1125 / 2 := by push_cast; norm_num
  rw [hmin, hv, rustRoundAsU32, rustRound, if_pos (by norm_num)]
  rw [floor_rat_eq (1125 / 2 + 1 / 2) 563 (by norm_num) (by norm_num)]
  rfl

/-- C1 (amended): for every source and every aspect-ratio string that parses
to (W, H), the resolved window is `(trunc(W * scale), trunc(H * scale))` with
`scale = min(imgW / W, imgH / H)` — truncation (`as u32`), not rounding — and
that window fits inside the source. -/
theorem smart_crop_target_resolution_floor (imgW imgH : ℕ) (s : String) (rw rh : ℕ)
    (hparse : parseAspectRatioStr s = .ok (rw, rh)) :
    resolveSmartCropTarget imgW imgH ⟨none, none, some s⟩ =
      .ok (f64AsU32 ((rw : ℚ) * min ((imgW : ℚ) / (rw : ℚ)) ((imgH : ℚ) / (rh : ℚ))),
           f64AsU32 ((rh : ℚ) * min ((imgW : ℚ) / (rw : ℚ)) ((imgH : ℚ) / (rh : ℚ)))) ∧
    f64AsU32 ((rw : ℚ) * min ((imgW : ℚ) / (rw : ℚ)) ((imgH : ℚ) / (rh : ℚ))) ≤ imgW ∧
    f64AsU32 ((rh : ℚ) * min ((imgW : ℚ) / (rw : ℚ)) ((imgH : ℚ) / (rh : ℚ))) ≤ imgH := by
  obtain ⟨hrw, hrh⟩ := parseAspectRatioStr_pos s rw rh hparse
  refine ⟨?_, ?_, ?_⟩
  · simp only [resolveSmartCropTarget, hparse]
  · apply f64AsU32_le_nat
    have hle : (rw : ℚ) * min ((imgW : ℚ) / (rw : ℚ)) ((imgH : ℚ) / (rh : ℚ)) ≤
        (rw : ℚ) * ((imgW : ℚ) / (rw : ℚ)) :=
      mul_le_mul_of_nonneg_left (min_le_left _ _) (by positivity)
    have hcancel : (rw : ℚ) * ((imgW : ℚ) / (rw : ℚ)) = (imgW : ℚ) := by
      field_simp
    rw [hcancel] at hle
    exact hle
  · apply f64AsU32_le_nat
    have hle : (rh : ℚ) * min ((imgW : ℚ) / (rw : ℚ)) ((imgH : ℚ) / (rh : ℚ)) ≤
        (rh : ℚ) * ((imgH : ℚ) / (rh : ℚ)) :=
      mul_le_mul_of_nonneg_left (min_le_right _ _) (by positivity)
    have hcancel : (rh : ℚ) * ((imgH : ℚ) / (rh : ℚ)) = (imgH : ℚ) := by
      field_simp
    rw [hcancel] at hle
    exact hle

/-- C1 witness: the amended statement instantiated on an 800 by 600 source
with the ratio 4:3. -/
theorem smart_crop_target_resolution_floor_witness :
    resolveSmartCropTarget 800 600 ⟨none, none, some "4:3"⟩ =
      .ok (f64AsU32 (((4 : ℕ) : ℚ) *
             min (((800 : ℕ) : ℚ) / ((4 : ℕ) : ℚ)) (((600 : ℕ) : ℚ) / ((3 : ℕ) : ℚ))),
           f64AsU32 (((3 : ℕ) : ℚ) *
             min (((800 : ℕ) : ℚ) / ((4 : ℕ) : ℚ)) (((600 : ℕ) : ℚ) / ((3 : ℕ) : ℚ)))) ∧
    f64AsU32 (((4 : ℕ) : ℚ) *
      min (((800 : ℕ) : ℚ) / ((4 : ℕ) : ℚ)) (((600 : ℕ) : ℚ) / ((3 : ℕ) : ℚ))) ≤ 800 ∧
    f64AsU32 (((3 : ℕ) : ℚ) *
      min (((800 : ℕ) : ℚ) / ((4 : ℕ) : ℚ)) (((600 : ℕ) : ℚ) / ((3 : ℕ) : ℚ))) ≤ 600 :=
  smart_crop_target_resolution_floor 800 600 "4:3" 4 3 rfl

/-- C2: smart crop on a 1000 by 1000 source with aspect ratio 16:9 resolves
the target window to exactly 1000 by 562, contained in the source bounds. -/
theorem smart_crop_16_9_on_1000_square :
    resolveSmartCropTarget 1000 1000 ⟨none, none, some "16:9"⟩ = .ok (1000, 562) ∧
    1000 ≤ 1000 ∧ 562 ≤ 1000 :=
  ⟨resolveTarget_1000_sq_16_9, le_refl _, by norm_num⟩

/-- C3: for a source W by H with W positive and a thumbnail request giving
only a width, the resolved target is the given width and the height
round(w * H / W) clamped to a minimum of 1. -/
theorem thumbnail_derived_height (W H w : ℕ) (hW : 0 < W) :
    resolveThumbTarget W H w none =
      (w, max (rustRoundAsU32 (((w : ℚ) * (H : ℚ)) / (W : ℚ))) 1) := by
  have h1 : resolveThumbTarget W H w none =
      (w, max (rustRoundAsU32 ((H : ℚ) * ((w : ℚ) / (W : ℚ)))) 1) := rfl
  rw [h1, show (H : ℚ) * ((w : ℚ) / (W : ℚ)) = ((w : ℚ) * (H : ℚ)) / (W : ℚ) from by ring]

/-- C3 witness: a 4000 by 3000 source with requested width 200. -/
theorem thumbnail_derived_height_witness :
    resolveThumbTarget 4000 3000 200 none =
      (200, max (rustRoundAsU32 ((((200 : ℕ) : ℚ) * ((3000 : ℕ) : ℚ)) / ((4000 : ℕ) : ℚ))) 1) :=
  thumbnail_derived_height 4000 3000 200 (by decide)

/-- C4: in fast mode the thumbnail resize pass is skipped exactly when both
decoded/target ratios lie in [0.85, 1.15]; a decoded 212 by 200 against a
200 by 200 target skips the resize and a decoded 240 by 200 does not; with
fast mode off, the pass is skipped exactly on equal dimensions. -/
theorem thumbnail_skip_resize_tolerance :
    (∀ dw dh tw th : ℕ,
      (skipResizeDecision true dw dh tw th = true ↔
        ((85 : ℚ) / 100 ≤ (dw : ℚ) / (tw : ℚ) ∧ (dw : ℚ) / (tw : ℚ) ≤ (115 : ℚ) / 100 ∧
         (85 : ℚ) / 100 ≤ (dh : ℚ) / (th : ℚ) ∧ (dh : ℚ) / (th : ℚ) ≤ (115 : ℚ) / 100)) ∧
      (skipResizeDecision false dw dh tw th = true ↔ (dw = tw ∧ dh = th))) ∧
    skipResizeDecision true 212 200 200 200 = true ∧
    skipResizeDecision true 240 200 200 200 = false := by
  have main : ∀ dw dh tw th : ℕ,
      (skipResizeDecision true dw dh tw th = true ↔
        ((85 : ℚ) / 100 ≤ (dw : ℚ) / (tw : ℚ) ∧ (dw : ℚ) / (tw : ℚ) ≤ (115 : ℚ) / 100 ∧
         (85 : ℚ) / 100 ≤ (dh : ℚ) / (th : ℚ) ∧ (dh : ℚ) / (th : ℚ) ≤ (115 : ℚ) / 100)) ∧
      (skipResizeDecision false dw dh tw th = true ↔ (dw = tw ∧ dh = th)) := by
    intro dw dh tw th
    constructor
    · simp only [skipResizeDecision, if_true, Bool.and_eq_true, decide_eq_true_eq]
      tauto
    · simp [skipResizeDecision, Bool.and_eq_true, beq_iff_eq]
  refine ⟨main, ?_, ?_⟩
  · refine ((main 212 200 200 200).1).mpr ?_
    refine ⟨?_, ?_, ?_, ?_⟩ <;> push_cast <;> norm_num
  · rw [Bool.eq_false_iff]
    intro htrue
    have := ((main 240 200 200 200).1).mp htrue
    have h2 := this.2.1
    push_cast at h2
    norm_num at h2

/-- The code target formula `dim * (100 / max)` and the spec formula
`(dim * 100) / max` coincide over the exact-arithmetic model. -/
theorem thumbTarget_eq_spec (w h : ℕ) : thumbTarget w h = thumbTargetSpec w h := by
  unfold thumbTarget thumbTargetSpec
  by_cases hc : 100 < w ∨ 100 < h
  · simp only [if_pos hc, Prod.mk.injEq]
    constructor
    · congr 1
      congr 1
      ring
    · congr 1
      congr 1
      ring
  · simp only [if_neg hc]

/-- C5: whenever the probe succeeds and the thumbhash pipeline returns a
result, the result reports the probed original width, height and alpha flag,
while the hash bytes come from the raster decoded at the reduced target of
the spec formula (round(dim * 100 / max(origW, origH)) clamped to a minimum
of 1 when either side exceeds 100, the original dimensions otherwise). -/
theorem thumbhash_reports_original_dims (pm : Except ImageError ImageMetadata)
    (dt : ℕ → ℕ → Except ImageError RawImage) (ta : RawImage → List ℕ)
    (pk : ℕ → ℕ → List ℕ → List ℕ) (meta : ImageMetadata) (res : ThumbHashResult)
    (hpm : pm = .ok meta) (hres : thumbhashSyncCore pm dt ta pk = .ok res) :
    res.width = meta.width ∧ res.height = meta.height ∧ res.hasAlpha = meta.hasAlpha ∧
    ∃ img, dt (thumbTargetSpec meta.width meta.height).1 (thumbTargetSpec meta.width meta.height).2 =
        .ok img ∧
      res.hash = pk img.width img.height (ta img) := by
  subst hpm
  have hres2 : (match dt (thumbTarget meta.width meta.height).1
        (thumbTarget meta.width meta.height).2 with
      | Except.error e => (Except.error e : Except ImageError ThumbHashResult)
      | Except.ok img =>
        Except.ok ⟨pk img.width img.height (ta img), meta.width, meta.height,
          meta.hasAlpha⟩) = .ok res := hres
  rw [← thumbTarget_eq_spec]
  cases hdt : dt (thumbTarget meta.width meta.height).1 (thumbTarget meta.width meta.height).2 with
  | error e =>
    rw [hdt] at hres2
    exact absurd hres2 (by simp)
  | ok img =>
    rw [hdt] at hres2
    simp only [Except.ok.injEq] at hres2
    subst hres2
    exact ⟨rfl, rfl, rfl, img, rfl, rfl⟩

/-- C5 witness: an 80 by 60 probe (no reduction needed), a decoder honouring
the requested target and a packer returning the decoded dimensions. -/
theorem thumbhash_reports_original_dims_witness :
    (⟨[80, 60], 80, 60, true⟩ : ThumbHashResult).width =
      (⟨80, 60, "png", true⟩ : ImageMetadata).width ∧
    (⟨[80, 60], 80, 60, true⟩ : ThumbHashResult).height =
      (⟨80, 60, "png", true⟩ : ImageMetadata).height ∧
    (⟨[80, 60], 80, 60, true⟩ : ThumbHashResult).hasAlpha =
      (⟨80, 60, "png", true⟩ : ImageMetadata).hasAlpha := by
  have h := thumbhash_reports_original_dims (.ok ⟨80, 60, "png", true⟩)
    (fun w h => .ok ⟨w, h, []⟩) (fun img => img.pixels) (fun w h _ => [w, h])
    ⟨80, 60, "png", true⟩ ⟨[80, 60], 80, 60, true⟩ rfl rfl
  exact ⟨h.1, h.2.1, h.2.2.1⟩

/-- C6 counterexample: the aspect ratio 0:9 makes the non-blocking smart-crop
analysis fail, but with a `ProcessingError` tag (lib.rs line 574), which does
not carry the `InvalidOption` classification the claim names. -/
theorem aspect_error_not_invalid_option :
    smartCropAnalyzeAsyncCore (.ok ⟨1000, 1000, []⟩) id (fun _ _ _ => .ok ⟨0, 0, 16, 9, 0⟩)
      ⟨none, none, some "0:9"⟩ = .error (.ProcessingError aspectZeroErrMsg) ∧
    (ImageError.ProcessingError aspectZeroErrMsg).isInvalidOption = false :=
  ⟨rfl, rfl⟩

/-- C6 (amended): parsing maps 16:9 to (16, 9), and each of 16:9:1, 0:9 and
a:9 makes both smart-crop forms fail — tagged `ProcessingError` in the
non-blocking form and an untagged reason in the blocking form, not a
distinct `InvalidOption` classification. -/
theorem aspect_parse_results (img : RawImage) (toRgb : RawImage → RawImage)
    (finder : RawImage → ℕ → ℕ → Except String SmartCropAnalysis) :
    parseAspectRatioStr "16:9" = .ok (16, 9) ∧
    parseAspectRatioStr "16:9:1" = .error (aspectFormatErrMsg "16:9:1") ∧
    parseAspectRatioStr "0:9" = .error aspectZeroErrMsg ∧
    parseAspectRatioStr "a:9" = .error (aspectWidthErrMsg "a") ∧
    smartCropAnalyzeAsyncCore (.ok img) toRgb finder ⟨none, none, some "16:9:1"⟩ =
      .error (.ProcessingError (aspectFormatErrMsg "16:9:1")) ∧
    smartCropAnalyzeSyncOp (.ok img) toRgb finder ⟨none, none, some "16:9:1"⟩ =
      .error ⟨aspectFormatErrMsg "16:9:1"⟩ ∧
    smartCropAnalyzeAsyncCore (.ok img) toRgb finder ⟨none, none, some "0:9"⟩ =
      .error (.ProcessingError aspectZeroErrMsg) ∧
    smartCropAnalyzeSyncOp (.ok img) toRgb finder ⟨none, none, some "0:9"⟩ =
      .error ⟨aspectZeroErrMsg⟩ ∧
    smartCropAnalyzeAsyncCore (.ok img) toRgb finder ⟨none, none, some "a:9"⟩ =
      .error (.ProcessingError (aspectWidthErrMsg "a")) ∧
    smartCropAnalyzeSyncOp (.ok img) toRgb finder ⟨none, none, some "a:9"⟩ =
      .error ⟨aspectWidthErrMsg "a"⟩ :=
  ⟨rfl, rfl, rfl, rfl, rfl, rfl, rfl, rfl, rfl, rfl⟩

/-- C7: both EXIF operations, in both forms, dispatch to a writer exactly for
the JPEG and WebP detected formats and reject every other format with the
unsupported-format failure. -/
theorem exif_format_gate (fmt : ImageFormat) (wj ww sj sw : Except ImageError (List ℕ)) :
    (fmt ≠ .Jpeg → fmt ≠ .WebP →
      writeExifCore (.ok fmt) wj ww = .error (.UnsupportedFormat exifWriteUnsupportedMsg) ∧
      stripExifCore (.ok fmt) sj sw = .error (.UnsupportedFormat exifStripUnsupportedMsg) ∧
      writeExifSyncOp (.ok fmt) wj ww = .error ⟨exifWriteUnsupportedMsg⟩ ∧
      stripExifSyncOp (.ok fmt) sj sw = .error ⟨exifStripUnsupportedMsg⟩) ∧
    (fmt = .Jpeg →
      writeExifCore (.ok fmt) wj ww = wj ∧ stripExifCore (.ok fmt) sj sw = sj ∧
      writeExifSyncOp (.ok fmt) wj ww = wj.mapError ImageError.toNapi ∧
      stripExifSyncOp (.ok fmt) sj sw = sj.mapError ImageError.toNapi) ∧
    (fmt = .WebP →
      writeExifCore (.ok fmt) wj ww = ww ∧ stripExifCore (.ok fmt) sj sw = sw ∧
      writeExifSyncOp (.ok fmt) wj ww = ww.mapError ImageError.toNapi ∧
      stripExifSyncOp (.ok fmt) sj sw = sw.mapError ImageError.toNapi) := by
  cases fmt <;>
    simp [writeExifCore, stripExifCore, writeExifSyncOp, stripExifSyncOp]

/-- C7 witness: a PNG input is rejected by both forms of both operations. -/
theorem exif_format_gate_witness :
    writeExifCore (.ok .Png) (.ok [1]) (.ok [2]) =
      .error (.UnsupportedFormat exifWriteUnsupportedMsg) ∧
    stripExifCore (.ok .Png) (.ok [3]) (.ok [4]) =
      .error (.UnsupportedFormat exifStripUnsupportedMsg) ∧
    writeExifSyncOp (.ok .Png) (.ok [1]) (.ok [2]) = .error ⟨exifWriteUnsupportedMsg⟩ ∧
    stripExifSyncOp (.ok .Png) (.ok [3]) (.ok [4]) = .error ⟨exifStripUnsupportedMsg⟩ :=
  (exif_format_gate .Png (.ok [1]) (.ok [2]) (.ok [3]) (.ok [4])).1
    (by decide) (by decide)

/-- C8: for every operation on the public surface (metadata, resize, crop,
toJpeg, toPng, toWebp, thumbnail, thumbnailBuffer, smartCropAnalyze,
smartCrop, dominantColors, imageHash, imageHashDistance, blurhash,
thumbhash, thumbhashToRgba, toTensor, writeExif and stripExif; version has
only a blocking form), the blocking form equals the non-blocking form
composed with the message-preserving napi conversion: on the same input the
two forms produce the same success value and the same failure
classification. -/
theorem sync_async_agreement :
    (∀ g : Except ImageError ImageMetadata,
      metadataSyncOp g = (metadataAsyncCore g).mapError ImageError.toNapi) ∧
    (∀ (d : Option ℕ → Option ℕ → Except ImageError RawImage)
        (r : RawImage → ResizeOptions → Except ImageError RawImage)
        (p : RawImage → Except ImageError (List ℕ)) (o : ResizeOptions),
      resizeSyncOp d r p o = (resizeAsyncCore d r p o).mapError ImageError.toNapi) ∧
    (∀ (d : Except ImageError RawImage)
        (cr : RawImage → CropOptions → Except ImageError RawImage)
        (p : RawImage → Except ImageError (List ℕ)) (o : CropOptions),
      cropSyncOp d cr p o = (cropAsyncCore d cr p o).mapError ImageError.toNapi) ∧
    (∀ (d : Except ImageError RawImage)
        (enc : RawImage → Option JpegOptions → Except ImageError (List ℕ))
        (o : Option JpegOptions),
      toJpegSyncOp d enc o = (toJpegAsyncCore d enc o).mapError ImageError.toNapi) ∧
    (∀ (d : Except ImageError RawImage)
        (enc : RawImage → Option PngOptions → Except ImageError (List ℕ))
        (o : Option PngOptions),
      toPngSyncOp d enc o = (toPngAsyncCore d enc o).mapError ImageError.toNapi) ∧
    (∀ (d : Except ImageError RawImage)
        (enc : RawImage → Option WebPOptions → Except ImageError (List ℕ))
        (o : Option WebPOptions),
      toWebpSyncOp d enc o = (toWebpAsyncCore d enc o).mapError ImageError.toNapi) ∧
    (∀ (c : ThumbnailCollab) (opts : ThumbnailOptions),
      thumbnailSyncOp c opts = thumbnailAsyncOp c opts) ∧
    (∀ (c : ThumbnailCollab) (opts : ThumbnailOptions),
      thumbnailBufferSyncOp c opts = thumbnailBufferAsyncOp c opts) ∧
    (∀ (dec : Except ImageError RawImage) (toRgb : RawImage → RawImage)
        (finder : RawImage → ℕ → ℕ → Except String SmartCropAnalysis)
        (opts : SmartCropOptions),
      smartCropAnalyzeSyncOp dec toRgb finder opts =
        (smartCropAnalyzeAsyncCore dec toRgb finder opts).mapError ImageError.toNapi) ∧
    (∀ (dec : Except ImageError RawImage) (toRgb : RawImage → RawImage)
        (finder : RawImage → ℕ → ℕ → Except String SmartCropAnalysis)
        (cropImm : RawImage → ℕ → ℕ → ℕ → ℕ → RawImage)
        (encPng : RawImage → Except ImageError (List ℕ)) (opts : SmartCropOptions),
      smartCropSyncOp dec toRgb finder cropImm encPng opts =
        (smartCropAsyncCore dec toRgb finder cropImm encPng opts).mapError ImageError.toNapi) ∧
    (∀ (dec : Except ImageError RawImage) (toRgb : RawImage → List ℕ)
        (getColors : List ℕ → List ℕ) (count : Option ℕ),
      dominantColorsSyncOp dec toRgb getColors count =
        (dominantColorsAsyncCore dec toRgb getColors count).mapError ImageError.toNapi) ∧
    (∀ (d : Except ImageError RawImage) (hi : HashAlg → ℕ → RawImage → String)
        (alg : Option HashAlgorithm) (sz : Option HashSize),
      imageHashSyncCore d hi alg sz = imageHashAsyncCore d hi alg sz) ∧
    (∀ (H : Type) (fromB64 : String → Except String H) (dist : H → H → ℕ) (h1 h2 : String),
      imageHashDistanceSyncOp H fromB64 dist h1 h2 =
        (imageHashDistanceCore H fromB64 dist h1 h2).mapError ImageError.toNapi) ∧
    (∀ (d : Except ImageError RawImage) (tr : RawImage → RawImage)
        (enc : ℕ → ℕ → ℕ → ℕ → List ℕ → Except String String) (cx cy : Option ℕ),
      blurhashSyncOp d tr enc cx cy =
        (blurhashAsyncCore d tr enc cx cy).mapError ImageError.toNapi) ∧
    (∀ (pm : Except ImageError ImageMetadata) (dt : ℕ → ℕ → Except ImageError RawImage)
        (ta : RawImage → List ℕ) (pk : ℕ → ℕ → List ℕ → List ℕ),
      thumbhashSyncCore pm dt ta pk = thumbhashAsyncCore pm dt ta pk) ∧
    (∀ u : Except Unit (ℕ × ℕ × List ℕ),
      thumbhashToRgbaSyncOp u = (thumbhashToRgbaAsyncCore u).mapError ImageError.toNapi) ∧
    (∀ (T : Type) (f : TensorOptions → Except ImageError T) (o : Option TensorOptions),
      toTensorSyncOp T f o = (toTensorAsyncCore T f o).mapError ImageError.toNapi) ∧
    (∀ (d : Except ImageError ImageFormat) (wj ww : Except ImageError (List ℕ)),
      writeExifSyncOp d wj ww = (writeExifCore d wj ww).mapError ImageError.toNapi) ∧
    (∀ (d : Except ImageError ImageFormat) (sj sw : Except ImageError (List ℕ)),
      stripExifSyncOp d sj sw = (stripExifCore d sj sw).mapError ImageError.toNapi) := by
  refine ⟨?_, ?_, ?_, ?_, ?_, ?_, ?_, ?_, ?_, ?_, ?_, ?_, ?_, ?_, ?_, ?_, ?_, ?_, ?_⟩
  · intro g
    rfl
  · intro d r p o
    unfold resizeSyncOp resizeAsyncCore
    cases hd : d o.width o.height with
    | error e =>
      simp only [hd]
      rfl
    | ok img =>
      simp only [hd]
      cases hr : r img o with
      | error e =>
        simp only [hr]
        rfl
      | ok resized =>
        simp only [hr]
        cases hp : p resized with
        | error e =>
          simp only [hp]
          rfl
        | ok out =>
          simp only [hp]
          rfl
  · intro d cr p o
    unfold cropSyncOp cropAsyncCore
    cases d with
    | error e => rfl
    | ok img =>
      cases hc : cr img o with
      | error e =>
        simp only [hc]
        rfl
      | ok cropped =>
        simp only [hc]
        cases hp : p cropped with
        | error e =>
          simp only [hp]
          rfl
        | ok out =>
          simp only [hp]
          rfl
  · intro d enc o
    unfold toJpegSyncOp toJpegAsyncCore
    cases d with
    | error e => rfl
    | ok img =>
      cases he : enc img o with
      | error e =>
        simp only [he]
        rfl
      | ok out =>
        simp only [he]
        rfl
  · intro d enc o
    unfold toPngSyncOp toPngAsyncCore
    cases d with
    | error e => rfl
    | ok img =>
      cases he : enc img o with
      | error e =>
        simp only [he]
        rfl
      | ok out =>
        simp only [he]
        rfl
  · intro d enc o
    unfold toWebpSyncOp toWebpAsyncCore
    cases d with
    | error e => rfl
    | ok img =>
      cases he : enc img o with
      | error e =>
        simp only [he]
        rfl
      | ok out =>
        simp only [he]
        rfl
  · intro c opts
    rfl
  · intro c opts
    unfold thumbnailBufferSyncOp thumbnailBufferAsyncOp
    cases hg : generateThumbnailInternal c opts with
    | error e =>
      simp only [hg]
      rfl
    | ok r =>
      simp only [hg]
      rfl
  · intro dec toRgb finder opts
    unfold smartCropAnalyzeSyncOp smartCropAnalyzeAsyncCore
    cases dec with
    | error e => rfl
    | ok img =>
      cases hres : resolveSmartCropTarget img.width img.height opts with
      | error e =>
        simp only [hres]
        rfl
      | ok target =>
        obtain ⟨tw, th⟩ := target
        simp only [hres]
        by_cases hw : tw = 0
        · subst hw
          rfl
        · by_cases hh : th = 0
          · subst hh
            rw [if_neg hw, if_neg hw]
            rfl
          · rw [if_neg hw, if_neg hh, if_neg hw, if_neg hh]
            cases hf : finder (toRgb img) tw th with
            | error e =>
              simp only [hf]
              rfl
            | ok r =>
              simp only [hf]
              rfl
  · intro dec toRgb finder cropImm encPng opts
    unfold smartCropSyncOp smartCropAsyncCore
    cases dec with
    | error e => rfl
    | ok img =>
      cases hres : resolveSmartCropTarget img.width img.height opts with
      | error e =>
        simp only [hres]
        rfl
      | ok target =>
        obtain ⟨tw, th⟩ := target
        simp only [hres]
        by_cases hw : tw = 0
        · subst hw
          rfl
        · by_cases hh : th = 0
          · subst hh
            rw [if_neg hw, if_neg hw]
            rfl
          · rw [if_neg hw, if_neg hh, if_neg hw, if_neg hh]
            cases hf : finder (toRgb img) tw th with
            | error e =>
              simp only [hf]
              rfl
            | ok r =>
              simp only [hf]
              cases hp : encPng (cropImm img r.x r.y r.width r.height) with
              | error e =>
                simp only [hp]
                rfl
              | ok out =>
                simp only [hp]
                rfl
  · intro dec toRgb getColors count
    cases dec <;> rfl
  · intro d hi alg sz
    rfl
  · intro H fromB64 dist h1 h2
    unfold imageHashDistanceSyncOp imageHashDistanceCore
    cases fromB64 h1 with
    | error e => rfl
    | ok v1 => cases fromB64 h2 <;> rfl
  · intro d tr enc cx cy
    unfold blurhashSyncOp blurhashAsyncCore
    cases d with
    | error e => rfl
    | ok img =>
      cases he : enc (cx.getD 4) (cy.getD 3) (tr img).width (tr img).height (tr img).pixels with
      | error e =>
        simp only [he]
        rfl
      | ok hash =>
        simp only [he]
        rfl
  · intro pm dt ta pk
    rfl
  · intro u
    cases u with
    | error e => rfl
    | ok t =>
      obtain ⟨w, h, rgba⟩ := t
      rfl
  · intro T f o
    rfl
  · intro d wj ww
    cases d with
    | error e => rfl
    | ok fmt => cases fmt <;> rfl
  · intro d sj sw
    cases d with
    | error e => rfl
    | ok fmt => cases fmt <;> rfl

/-- C9: with `count = 0` the dominant-colors operation, in both forms,
returns exactly the black fallback as its single color and as the primary,
whatever the decoded image and whatever the extractor produced. -/
theorem dominant_colors_count_zero_black (img : RawImage) (toRgb : RawImage → List ℕ)
    (getColors : List ℕ → List ℕ) :
    dominantColorsAsyncCore (.ok img) toRgb getColors (some 0) =
      .ok ⟨[blackColor], blackColor⟩ ∧
    dominantColorsSyncOp (.ok img) toRgb getColors (some 0) =
      .ok ⟨[blackColor], blackColor⟩ := by
  have hloop : ∀ bytes : List ℕ, colorsLoop 0 bytes [] = [] := by
    intro bytes
    rcases bytes with _ | ⟨a, _ | ⟨b, _ | ⟨c, rest⟩⟩⟩ <;> simp [colorsLoop]
  constructor <;>
    simp [dominantColorsAsyncCore, dominantColorsSyncOp, hloop]

/-- The collection loop returns at most `max maxColors acc.length` colors. -/
theorem colorsLoop_length (m : ℕ) : ∀ (bytes : List ℕ) (acc : List DominantColor),
    (colorsLoop m bytes acc).length ≤ max m acc.length := by
  intro bytes acc
  induction bytes, acc using colorsLoop.induct m with
  | case1 r g b rest acc hle =>
    rw [colorsLoop, if_pos hle]
    exact le_max_right _ _
  | case2 r g b rest acc hle ih =>
    rw [colorsLoop, if_neg hle]
    refine le_trans ih ?_
    simp only [List.length_append, List.length_cons, List.length_nil]
    omega
  | case3 bytes acc hne =>
    rcases bytes with _ | ⟨a, _ | ⟨b, _ | ⟨c, t⟩⟩⟩
    · simp [colorsLoop]
    · simp [colorsLoop]
    · simp [colorsLoop]
    · exact absurd rfl (hne a b c t)

/-- Every color the collection loop adds carries the hex rendering of its
own channel bytes. -/
theorem colorsLoop_hex (m : ℕ) : ∀ (bytes : List ℕ) (acc : List DominantColor),
    (∀ c ∈ acc, c.hex = rgb_to_hex c.r c.g c.b) →
    ∀ c ∈ colorsLoop m bytes acc, c.hex = rgb_to_hex c.r c.g c.b := by
  intro bytes acc
  induction bytes, acc using colorsLoop.induct m with
  | case1 r g b rest acc hle =>
    intro hacc
    rw [colorsLoop, if_pos hle]
    exact hacc
  | case2 r g b rest acc hle ih =>
    intro hacc
    rw [colorsLoop, if_neg hle]
    refine ih ?_
    intro c hc
    rcases List.mem_append.mp hc with hmem | hmem
    · exact hacc c hmem
    · rcases List.mem_singleton.mp hmem with rfl
      rfl
  | case3 bytes acc hne =>
    intro hacc
    rcases bytes with _ | ⟨a, _ | ⟨b, _ | ⟨c, t⟩⟩⟩
    · simpa [colorsLoop] using hacc
    · simpa [colorsLoop] using hacc
    · simpa [colorsLoop] using hacc
    · exact absurd rfl (hne a b c t)

/-- C10: every successful dominant-colors result has a non-empty color list
of length at most max(count or 5, 1), its primary is the first listed color,
and every entry carries the uppercase zero-padded hex rendering of its own
r, g, b values. -/
theorem dominant_colors_result_invariants (dec : Except ImageError RawImage)
    (toRgb : RawImage → List ℕ) (getColors : List ℕ → List ℕ) (count : Option ℕ)
    (res : DominantColorsResult)
    (h : dominantColorsAsyncCore dec toRgb getColors count = .ok res) :
    res.colors ≠ [] ∧ res.colors.length ≤ max (count.getD 5) 1 ∧
    res.colors.head? = some res.primary ∧
    ∀ c ∈ res.colors, c.hex = rgb_to_hex c.r c.g c.b := by
  cases dec with
  | error e => exact absurd h (by simp [dominantColorsAsyncCore])
  | ok img =>
    have h2 : (Except.ok
        (⟨if (colorsLoop (count.getD 5) (getColors (toRgb img)) []).isEmpty then [blackColor]
            else colorsLoop (count.getD 5) (getColors (toRgb img)) [],
          (if (colorsLoop (count.getD 5) (getColors (toRgb img)) []).isEmpty then [blackColor]
            else colorsLoop (count.getD 5) (getColors (toRgb img)) []).headD blackColor⟩ :
          DominantColorsResult) : Except ImageError DominantColorsResult) = .ok res := h
    simp only [Except.ok.injEq] at h2
    subst h2
    by_cases hemp : (colorsLoop (count.getD 5) (getColors (toRgb img)) []).isEmpty
    · refine ⟨by simp [hemp], ?_, by simp [hemp], ?_⟩
      · simp only [hemp, if_true]
        simp
      · simp only [hemp, if_true]
        intro c hc
        rcases List.mem_singleton.mp hc with rfl
        rfl
    · have hlen := colorsLoop_length (count.getD 5) (getColors (toRgb img)) []
      have hne : colorsLoop (count.getD 5) (getColors (toRgb img)) [] ≠ [] := by
        intro hnil
        rw [hnil] at hemp
        exact hemp rfl
      refine ⟨by simp [hemp, hne], ?_, ?_, ?_⟩
      · simp only [hemp, if_false]
        simp only [List.length_nil, Nat.max_zero] at hlen
        exact le_trans hlen (le_max_left _ _)
      · simp only [hemp, if_false]
        rcases hlist : colorsLoop (count.getD 5) (getColors (toRgb img)) [] with _ | ⟨c0, rest⟩
        · exact absurd hlist hne
        · rfl
      · simp only [hemp, if_false]
        exact colorsLoop_hex (count.getD 5) (getColors (toRgb img)) [] (by intro c hc; cases hc)

/-- C10 witness: two extracted colors from a six-byte stream with the
default count. -/
theorem dominant_colors_result_invariants_witness :
    (⟨[⟨10, 20, 30, rgb_to_hex 10 20 30⟩, ⟨40, 50, 60, rgb_to_hex 40 50 60⟩],
        ⟨10, 20, 30, rgb_to_hex 10 20 30⟩⟩ : DominantColorsResult).colors ≠ [] ∧
    (⟨[⟨10, 20, 30, rgb_to_hex 10 20 30⟩, ⟨40, 50, 60, rgb_to_hex 40 50 60⟩],
        ⟨10, 20, 30, rgb_to_hex 10 20 30⟩⟩ : DominantColorsResult).colors.length ≤
      max ((none : Option ℕ).getD 5) 1 ∧
    (⟨[⟨10, 20, 30, rgb_to_hex 10 20 30⟩, ⟨40, 50, 60, rgb_to_hex 40 50 60⟩],
        ⟨10, 20, 30, rgb_to_hex 10 20 30⟩⟩ : DominantColorsResult).colors.head? =
      some (⟨[⟨10, 20, 30, rgb_to_hex 10 20 30⟩, ⟨40, 50, 60, rgb_to_hex 40 50 60⟩],
        ⟨10, 20, 30, rgb_to_hex 10 20 30⟩⟩ : DominantColorsResult).primary := by
  have h := dominant_colors_result_invariants (.ok ⟨1, 1, []⟩) (fun img => img.pixels)
    (fun _ => [10, 20, 30, 40, 50, 60]) none
    ⟨[⟨10, 20, 30, rgb_to_hex 10 20 30⟩, ⟨40, 50, 60, rgb_to_hex 40 50 60⟩],
      ⟨10, 20, 30, rgb_to_hex 10 20 30⟩⟩ rfl
  exact ⟨h.1, h.2.1, h.2.2.1⟩

/-- C6 witness: the amended statement instantiated on a concrete image and
scorer. -/
theorem aspect_parse_results_witness :
    parseAspectRatioStr "16:9" = .ok (16, 9) ∧
    parseAspectRatioStr "16:9:1" = .error (aspectFormatErrMsg "16:9:1") ∧
    parseAspectRatioStr "0:9" = .error aspectZeroErrMsg ∧
    parseAspectRatioStr "a:9" = .error (aspectWidthErrMsg "a") := by
  have h := aspect_parse_results ⟨1, 1, []⟩ id (fun _ _ _ => .ok ⟨0, 0, 16, 9, 0⟩)
  exact ⟨h.1, h.2.1, h.2.2.1, h.2.2.2.1⟩

/-- C9 witness: count zero on a concrete image and extractor output. -/
theorem dominant_colors_count_zero_black_witness :
    dominantColorsAsyncCore (.ok ⟨1, 1, []⟩) (fun img => img.pixels)
      (fun _ => [7, 8, 9]) (some 0) = .ok ⟨[blackColor], blackColor⟩ :=
  (dominant_colors_count_zero_black ⟨1, 1, []⟩ (fun img => img.pixels)
    (fun _ => [7, 8, 9])).1
